import Mathlib

/-!
# Verification of the GitHub-OAuth broker worker (`src/github-oauth-index.ts`)

Shallow embedding of the worker's OAuth endpoints:

* `/authorize` (fallback branch, the one that validates parameters itself),
* `/github/callback` (manual completion via the stored `oauth_params`),
* `/token` (authorization-code grant with PKCE),
* `/register` (dynamic client registration),
* the `/sse` bearer-validation gate.

The Cloudflare KV store is modelled as four partial maps, one per key prefix
(`github_state:`, `auth_code:`, `access_token:`, `client:`); a stored entry
carries the value together with the `expirationTtl` it was written with.
Randomness (`crypto.randomUUID`) and the clock (`Date.now`) are passed in as
parameters.  JavaScript string truthiness (`null` and `""` are falsy) is
modelled by `truthy` on `Option String`.  URLs built via
`URL.searchParams.set` are modelled as a base string plus the list of
parameters set on it, in order.  SHA-256 and unpadded base64url are embedded
concretely so that PKCE verification is the real computation.
-/

namespace OAuthBroker

/-- JavaScript truthiness of a nullable string: `null` and `""` are falsy. -/
def truthy : Option String → Bool
  | none => false
  | some s => s != ""

/-! ## SHA-256 over byte lists (bytes are `Nat < 256`, words are `Nat < 2^32`) -/

/-- Truncate to a 32-bit word. -/
def w32 (n : Nat) : Nat := n % 4294967296

/-- 32-bit right rotation. -/
def rotr (n x : Nat) : Nat := w32 ((x >>> n) ||| (x <<< (32 - n)))

/-- Bitwise complement on 32 bits. -/
def bnot32 (x : Nat) : Nat := Nat.xor x 4294967295

def shaCh (x y z : Nat) : Nat := Nat.xor (Nat.land x y) (Nat.land (bnot32 x) z)

def shaMaj (x y z : Nat) : Nat :=
  Nat.xor (Nat.xor (Nat.land x y) (Nat.land x z)) (Nat.land y z)

def bigSigma0 (x : Nat) : Nat := Nat.xor (Nat.xor (rotr 2 x) (rotr 13 x)) (rotr 22 x)
def bigSigma1 (x : Nat) : Nat := Nat.xor (Nat.xor (rotr 6 x) (rotr 11 x)) (rotr 25 x)
def smallSigma0 (x : Nat) : Nat := Nat.xor (Nat.xor (rotr 7 x) (rotr 18 x)) (x >>> 3)
def smallSigma1 (x : Nat) : Nat := Nat.xor (Nat.xor (rotr 17 x) (rotr 19 x)) (x >>> 10)

/-- The SHA-256 round constants (FIPS 180-4, written in decimal). -/
def shaK : List Nat :=
  [1116352408, 1899447441, 3049323471, 3921009573, 961987163, 1508970993,
   2453635748, 2870763221, 3624381080, 310598401, 607225278, 1426881987,
   1925078388, 2162078206, 2614888103, 3248222580, 3835390401, 4022224774,
   264347078, 604807628, 770255983, 1249150122, 1555081692, 1996064986,
   2554220882, 2821834349, 2952996808, 3210313671, 3336571891, 3584528711,
   113926993, 338241895, 666307205, 773529912, 1294757372, 1396182291,
   1695183700, 1986661051, 2177026350, 2456956037, 2730485921, 2820302411,
   3259730800, 3345764771, 3516065817, 3600352804, 4094571909, 275423344,
   430227734, 506948616, 659060556, 883997877, 958139571, 1322822218,
   1537002063, 1747873779, 1955562222, 2024104815, 2227730452, 2361852424,
   2428436474, 2756734187, 3204031479, 3329325298]

/-- The SHA-256 initial hash value (FIPS 180-4, written in decimal). -/
def shaH0 : List Nat :=
  [1779033703, 3144134277, 1013904242, 2773480762,
   1359893119, 2600822924, 528734635, 1541459225]

/-- Big-endian bytes of `n`, `k` bytes long. -/
def beBytes : Nat → Nat → List Nat
  | 0, _ => []
  | k + 1, n => beBytes k (n >>> 8) ++ [n % 256]

/-- SHA-256 padding: append `0x80`, zeros to 56 mod 64, then the 64-bit
bit length. -/
def shaPad (msg : List Nat) : List Nat :=
  let z := (119 - msg.length % 64) % 64
  msg ++ [0x80] ++ List.replicate z 0 ++ beBytes 8 (8 * msg.length)

/-- Split a byte list into 64-byte blocks; the fuel bounds the number of
blocks (each step consumes at least one byte, so `l.length` fuel suffices). -/
def toBlocksAux : Nat → List Nat → List (List Nat)
  | 0, _ => []
  | _, [] => []
  | fuel + 1, a :: rest => ((a :: rest).take 64) :: toBlocksAux fuel ((a :: rest).drop 64)

/-- Split a byte list into 64-byte blocks. -/
def toBlocks (l : List Nat) : List (List Nat) := toBlocksAux l.length l

/-- Pack 4 bytes big-endian into one 32-bit word. -/
def packWords : List Nat → List Nat
  | b0 :: b1 :: b2 :: b3 :: rest =>
      (b0 <<< 24 ||| b1 <<< 16 ||| b2 <<< 8 ||| b3) :: packWords rest
  | _ => []

/-- Message schedule: extend 16 words to 64. -/
def schedule (w0 : List Nat) : List Nat :=
  (List.range 48).foldl
    (fun w _ =>
      let t := w.length
      w ++ [w32 (smallSigma1 (w.getD (t - 2) 0) + w.getD (t - 7) 0 +
                 smallSigma0 (w.getD (t - 15) 0) + w.getD (t - 16) 0)])
    w0

/-- Working state of the compression function. -/
structure ShaState where
  a : Nat
  b : Nat
  c : Nat
  d : Nat
  e : Nat
  f : Nat
  g : Nat
  h : Nat
deriving DecidableEq, Repr

/-- One compression round. -/
def shaRound (s : ShaState) (kw : Nat × Nat) : ShaState :=
  let t1 := w32 (s.h + bigSigma1 s.e + shaCh s.e s.f s.g + kw.1 + kw.2)
  let t2 := w32 (bigSigma0 s.a + shaMaj s.a s.b s.c)
  ⟨w32 (t1 + t2), s.a, s.b, s.c, w32 (s.d + t1), s.e, s.f, s.g⟩

/-- Compress one 64-byte block into the running hash (8 words). -/
def compressBlock (hs : List Nat) (block : List Nat) : List Nat :=
  let w := schedule (packWords block)
  let s0 : ShaState :=
    ⟨hs.getD 0 0, hs.getD 1 0, hs.getD 2 0, hs.getD 3 0,
     hs.getD 4 0, hs.getD 5 0, hs.getD 6 0, hs.getD 7 0⟩
  let s := (shaK.zip w).foldl shaRound s0
  [w32 (hs.getD 0 0 + s.a), w32 (hs.getD 1 0 + s.b), w32 (hs.getD 2 0 + s.c),
   w32 (hs.getD 3 0 + s.d), w32 (hs.getD 4 0 + s.e), w32 (hs.getD 5 0 + s.f),
   w32 (hs.getD 6 0 + s.g), w32 (hs.getD 7 0 + s.h)]

/-- SHA-256 digest of a byte list, as 32 bytes. -/
def sha256 (msg : List Nat) : List Nat :=
  let final := (toBlocks (shaPad msg)).foldl compressBlock shaH0
  final.foldr (fun word acc => beBytes 4 word ++ acc) []

/-! ## base64url without padding and UTF-8 encoding -/

/-- The base64url alphabet. -/
def b64Alphabet : List Char :=
  "ABCDEFGHIJKLMNOPQRSTUVWXYZabcdefghijklmnopqrstuvwxyz0123456789-_".toList

def b64Char (n : Nat) : Char := b64Alphabet.getD n 'A'

/-- base64url encoding without `=` padding (what the worker's
`btoa` + `+/`→`-_` replacement + `=`-strip computes). -/
def base64urlNoPad : List Nat → List Char
  | [] => []
  | [a] => [b64Char (a >>> 2), b64Char ((a % 4) <<< 4)]
  | [a, b] =>
      [b64Char (a >>> 2), b64Char (((a % 4) <<< 4) ||| (b >>> 4)),
       b64Char ((b % 16) <<< 2)]
  | a :: b :: c :: rest =>
      b64Char (a >>> 2) :: b64Char (((a % 4) <<< 4) ||| (b >>> 4)) ::
      b64Char (((b % 16) <<< 2) ||| (c >>> 6)) :: b64Char (c % 64) ::
      base64urlNoPad rest

/-- UTF-8 bytes of one character (what `TextEncoder` emits). -/
def utf8Bytes (c : Char) : List Nat :=
  let n := c.toNat
  if n < 0x80 then [n]
  else if n < 0x800 then [0xC0 ||| (n >>> 6), 0x80 ||| (n % 64)]
  else if n < 0x10000 then
    [0xE0 ||| (n >>> 12), 0x80 ||| ((n >>> 6) % 64), 0x80 ||| (n % 64)]
  else
    [0xF0 ||| (n >>> 18), 0x80 ||| ((n >>> 12) % 64),
     0x80 ||| ((n >>> 6) % 64), 0x80 ||| (n % 64)]

/-- UTF-8 encoding of a string, as a byte list. -/
def utf8Encode (s : String) : List Nat :=
  (s.data.map utf8Bytes).foldr (· ++ ·) []

/-- The PKCE S256 challenge of a verifier:
`base64url(SHA-256(utf8(v)))` without padding — exactly the worker's
computation at `/token`. -/
def pkceChallenge (v : String) : String :=
  ⟨base64urlNoPad (sha256 (utf8Encode v))⟩

/-! ## Data model: the KV store and the records the worker serializes -/

/-- The original OAuth parameters stored by the `/authorize` fallback branch
(`oauth_params` in the session JSON).  The three validated parameters are
known to be present; the rest are stored as read from the query string. -/
structure OAuthParams where
  response_type : String
  client_id : String
  redirect_uri : String
  code_challenge : Option String
  code_challenge_method : Option String
  state : Option String
  scope : Option String
deriving DecidableEq, Repr

/-- A pending authorization session (`github_state:` entry, fallback
variant). -/
structure SessionRecord where
  oauth_params : OAuthParams
  created_at : Nat
deriving DecidableEq, Repr

/-- An authorization code record (`auth_code:` entry). -/
structure AuthCodeRecord where
  client_id : String
  redirect_uri : String
  code_challenge : Option String
  code_challenge_method : Option String
  github_code : String
  user_id : String
  created_at : Nat
deriving DecidableEq, Repr

/-- An access token record (`access_token:` entry). -/
structure AccessTokenRecord where
  user_id : String
  client_id : String
  github_code : String
  created_at : Nat
deriving DecidableEq, Repr

/-- A JSON value as far as the registration endpoint needs one. -/
inductive JVal where
  | str (s : String)
  | num (n : Nat)
deriving DecidableEq, Repr

/-- A JSON object, as a partial map from keys to values. -/
def JsonObj : Type := String → Option JVal

/-- The worker's `OAUTH_KV` store, split by key prefix; each entry keeps the
value together with the `expirationTtl` it was put with. -/
structure KV where
  github_state : String → Option (SessionRecord × Nat)
  auth_code : String → Option (AuthCodeRecord × Nat)
  access_token : String → Option (AccessTokenRecord × Nat)
  client : String → Option (JsonObj × Nat)

/-- The empty store. -/
def emptyKV : KV := ⟨fun _ => none, fun _ => none, fun _ => none, fun _ => none⟩

def KV.putSession (kv : KV) (k : String) (v : SessionRecord) (ttl : Nat) : KV :=
  { kv with github_state := fun k2 => if k2 = k then some (v, ttl) else kv.github_state k2 }

def KV.deleteSession (kv : KV) (k : String) : KV :=
  { kv with github_state := fun k2 => if k2 = k then none else kv.github_state k2 }

def KV.putAuthCode (kv : KV) (k : String) (v : AuthCodeRecord) (ttl : Nat) : KV :=
  { kv with auth_code := fun k2 => if k2 = k then some (v, ttl) else kv.auth_code k2 }

def KV.deleteAuthCode (kv : KV) (k : String) : KV :=
  { kv with auth_code := fun k2 => if k2 = k then none else kv.auth_code k2 }

def KV.putAccessToken (kv : KV) (k : String) (v : AccessTokenRecord) (ttl : Nat) : KV :=
  { kv with access_token := fun k2 => if k2 = k then some (v, ttl) else kv.access_token k2 }

def KV.putClient (kv : KV) (k : String) (v : JsonObj) (ttl : Nat) : KV :=
  { kv with client := fun k2 => if k2 = k then some (v, ttl) else kv.client k2 }

/-! ## HTTP responses (the observable part) -/

/-- A redirect target built with `new URL(base)` followed by
`searchParams.set` calls, modelled as the base URL string plus the ordered
list of parameters set on it. -/
structure RedirectTarget where
  base : String
  params : List (String × String)
deriving DecidableEq, Repr

/-- The observable pieces of a worker `Response` used by these endpoints. -/
structure Resp where
  status : Nat
  body : Option String := none
  jsonError : Option String := none
  jsonErrorDescription : Option String := none
  location : Option RedirectTarget := none
  accessToken : Option String := none
  tokenType : Option String := none
  expiresIn : Option Nat := none
  refreshToken : Option String := none
deriving DecidableEq, Repr

/-- GitHub's authorization URL (`GITHUB_AUTH_URL` in the worker). -/
def GITHUB_AUTH_URL : String := "https://github.com/login/oauth/authorize"

/-! ## `/authorize` — fallback branch (lines 36–82 of the worker)

The branch taken when no `OAUTH_PROVIDER` helper is bound: the worker parses
the OAuth query parameters itself, rejects if `response_type`, `client_id`
or `redirect_uri` is falsy, otherwise stores the parameters under a fresh
`github_state:` key with TTL 3600 and redirects to GitHub with the fresh
session id as the provider-facing `state`. -/

/-- The query parameters `/authorize` reads (absent parameter = `none`). -/
structure AuthorizeQuery where
  response_type : Option String
  client_id : Option String
  redirect_uri : Option String
  code_challenge : Option String
  code_challenge_method : Option String
  state : Option String
  scope : Option String
deriving DecidableEq, Repr

def authorizeFallback (kv : KV) (q : AuthorizeQuery) (githubClientId : String)
    (origin : String) (freshState : String) (now : Nat) : Resp × KV :=
  if !(truthy q.response_type) || !(truthy q.client_id) || !(truthy q.redirect_uri) then
    ({ status := 400, body := some "Missing required OAuth parameters" }, kv)
  else
    let params : OAuthParams :=
      { response_type := q.response_type.getD ""
        client_id := q.client_id.getD ""
        redirect_uri := q.redirect_uri.getD ""
        code_challenge := q.code_challenge
        code_challenge_method := q.code_challenge_method
        state := q.state
        scope := q.scope }
    let kv1 := kv.putSession freshState ⟨params, now⟩ 3600
    ({ status := 302
       location := some ⟨GITHUB_AUTH_URL,
         [("client_id", githubClientId),
          ("redirect_uri", origin ++ "/github/callback"),
          ("scope", "user:email"),
          ("state", freshState)]⟩ }, kv1)

/-! ## `/github/callback` — manual completion (lines 124–194)

Session lookup and delete are shared by both completion branches; the
embedded completion is the manual one (`oauth_params` sessions), the
provider-driven branch delegates to the external `OAUTH_PROVIDER` package
and is out of scope. -/

def githubCallback (kv : KV) (code state : Option String)
    (freshAuthCode : String) (now : Nat) : Resp × KV :=
  if !(truthy code) || !(truthy state) then
    ({ status := 400, body := some "Missing code or state" }, kv)
  else
    match kv.github_state (state.getD "") with
    | none => ({ status := 400, body := some "Invalid or expired session" }, kv)
    | some (session, _) =>
      let kv1 := kv.deleteSession (state.getD "")
      let codeStr := code.getD ""
      let authRecord : AuthCodeRecord :=
        { client_id := session.oauth_params.client_id
          redirect_uri := session.oauth_params.redirect_uri
          code_challenge := session.oauth_params.code_challenge
          code_challenge_method := session.oauth_params.code_challenge_method
          github_code := codeStr
          user_id := "github_user_" ++ codeStr.take 8
          created_at := now }
      let kv2 := kv1.putAuthCode freshAuthCode authRecord 600
      ({ status := 302
         location := some ⟨session.oauth_params.redirect_uri,
           ("code", freshAuthCode) ::
           (if truthy session.oauth_params.state then
              [("state", session.oauth_params.state.getD "")]
            else [])⟩ }, kv2)

/-! ## `POST /token` (lines 198–294)

Form fields read via `formData.get` (absent = `none`); `crypto.randomUUID`
for the access and refresh tokens and `Date.now()` are parameters.  The
submitted `client_id` is read by the worker but never used afterwards; it is
kept in the request record to mirror the source. -/

/-- The form fields the token endpoint reads. -/
structure TokenRequest where
  grant_type : Option String
  code : Option String
  code_verifier : Option String
  client_id : Option String
deriving DecidableEq, Repr

def tokenEndpoint (kv : KV) (req : TokenRequest)
    (freshAccess freshRefresh : String) (now : Nat) : Resp × KV :=
  if req.grant_type ≠ some "authorization_code" then
    ({ status := 400, jsonError := some "unsupported_grant_type" }, kv)
  else if !(truthy req.code) || !(truthy req.code_verifier) then
    ({ status := 400, jsonError := some "invalid_request",
       jsonErrorDescription := some "Missing code or code_verifier" }, kv)
  else
    match kv.auth_code (req.code.getD "") with
    | none =>
        ({ status := 400, jsonError := some "invalid_grant",
           jsonErrorDescription := some "Invalid or expired authorization code" }, kv)
    | some (authInfo, _) =>
        let kv1 := kv.deleteAuthCode (req.code.getD "")
        -- `if (authInfo.code_challenge) { ... if (base64 !== challenge) return error }`
        if truthy authInfo.code_challenge &&
            (pkceChallenge (req.code_verifier.getD "") != authInfo.code_challenge.getD "") then
          ({ status := 400, jsonError := some "invalid_grant",
             jsonErrorDescription := some "Invalid code verifier" }, kv1)
        else
          let kv2 := kv1.putAccessToken freshAccess
            ⟨authInfo.user_id, authInfo.client_id, authInfo.github_code, now⟩ 3600
          ({ status := 200, accessToken := some freshAccess,
             tokenType := some "Bearer", expiresIn := some 3600,
             refreshToken := some freshRefresh }, kv2)

/-! ## `POST /register` (lines 392–414)

The body is an already-parsed JSON object.  The stored record is
`{...body, client_id, created_at}` (the minted id and timestamp override the
body), the response body is `{client_id, ...body}` (the body overrides the
minted id — later spread wins in JavaScript). -/

def registerEndpoint (kv : KV) (body : JsonObj) (freshClientId : String)
    (now : Nat) : (Nat × JsonObj) × KV :=
  let stored : JsonObj := fun k =>
    if k = "created_at" then some (.num now)
    else if k = "client_id" then some (.str freshClientId)
    else body k
  let kv1 := kv.putClient freshClientId stored (86400 * 30)
  let respBody : JsonObj := fun k =>
    match body k with
    | some v => some v
    | none => if k = "client_id" then some (.str freshClientId) else none
  ((201, respBody), kv1)

/-! ## `/sse` bearer-validation gate (lines 324–372)

`validateAnthropicOrigin` and `rateLimitCheck` live in the (external)
security middleware; the gate only consumes their boolean verdicts, so they
are parameters, as are the config toggles (`ENABLE_IP_ALLOWLIST === 'true'`
and the presence of `RATE_LIMIT_KV`). -/

/-- Outcome of the gate: rejection (403 / 429 / 401 with
`WWW-Authenticate: Bearer`) or forwarding to the MCP handler with the
authenticated props attached to the context. -/
inductive GateResult where
  | forbidden
  | rateLimited
  | unauthorized
  | forwarded (user_id : String) (client_id : String)
deriving DecidableEq, Repr

/-- HTTP status of a rejection (`none` for a forwarded request, whose status
is the MCP handler's). -/
def GateResult.statusCode : GateResult → Option Nat
  | .forbidden => some 403
  | .rateLimited => some 429
  | .unauthorized => some 401
  | .forwarded _ _ => none

/-- Whether the response carries `WWW-Authenticate: Bearer`. -/
def GateResult.wwwAuthenticateBearer : GateResult → Bool
  | .unauthorized => true
  | _ => false

/-- `authHeader.startsWith('Bearer ')`, expressed on the character list
(`"Bearer "` is 7 ASCII characters, so the two readings coincide). -/
def isBearer (h : String) : Bool := h.data.take 7 = "Bearer ".data

/-- `authHeader.substring(7)`: the header after the `"Bearer "` prefix. -/
def bearerToken (h : String) : String := ⟨h.data.drop 7⟩

def sseGate (kv : KV) (enableIpAllowlist originValid hasRateLimitKV rateLimitOk : Bool)
    (authHeader : Option String) : GateResult :=
  if enableIpAllowlist && !originValid then .forbidden
  else if hasRateLimitKV && !rateLimitOk then .rateLimited
  else
    match authHeader with
    | some h =>
      if isBearer h then
        match kv.access_token (bearerToken h) with
        | some (tok, _) => .forwarded tok.user_id tok.client_id
        | none => .unauthorized
      else .unauthorized
    | none => .unauthorized

/-! ## Theorems -/

@[simp] theorem truthy_none : truthy none = false := rfl

@[simp] theorem truthy_some (s : String) : truthy (some s) = (s != "") := rfl

/-- C5: the token endpoint supports only the authorization-code grant — any
other (or missing) `grant_type` yields 400 `unsupported_grant_type`; with the
right grant type, a falsy (missing or empty) `code` or `code_verifier` yields
400 `invalid_request` — and in both cases the store is returned untouched (no
code is looked up or deleted). -/
theorem tokenEndpoint_grant_and_param_validation
    (kv : KV) (req : TokenRequest) (fa fr : String) (now : Nat) :
    (req.grant_type ≠ some "authorization_code" →
      tokenEndpoint kv req fa fr now =
        ({ status := 400, jsonError := some "unsupported_grant_type" }, kv)) ∧
    (req.grant_type = some "authorization_code" →
      (truthy req.code = false ∨ truthy req.code_verifier = false) →
      tokenEndpoint kv req fa fr now =
        ({ status := 400, jsonError := some "invalid_request",
           jsonErrorDescription := some "Missing code or code_verifier" }, kv)) := by
  constructor
  · intro h
    simp [tokenEndpoint, h]
  · intro hg hcv
    rcases hcv with h | h <;> simp [tokenEndpoint, hg, h]

/-- Witness for `tokenEndpoint_grant_and_param_validation`: a
`client_credentials` request is rejected as `unsupported_grant_type`, and an
authorization-code request without a `code` is rejected as
`invalid_request`, both without store change. -/
theorem tokenEndpoint_grant_and_param_validation_witness :
    (tokenEndpoint emptyKV ⟨some "client_credentials", some "c", some "v", none⟩ "a" "r" 0 =
      ({ status := 400, jsonError := some "unsupported_grant_type" }, emptyKV)) ∧
    (tokenEndpoint emptyKV ⟨some "authorization_code", none, some "v", none⟩ "a" "r" 0 =
      ({ status := 400, jsonError := some "invalid_request",
         jsonErrorDescription := some "Missing code or code_verifier" }, emptyKV)) :=
  ⟨(tokenEndpoint_grant_and_param_validation emptyKV
      ⟨some "client_credentials", some "c", some "v", none⟩ "a" "r" 0).1 (by decide),
   (tokenEndpoint_grant_and_param_validation emptyKV
      ⟨some "authorization_code", none, some "v", none⟩ "a" "r" 0).2 rfl (Or.inl rfl)⟩

/-- C10: when the stored authorization code carries no PKCE challenge, the
token endpoint performs no PKCE verification: any (truthy) verifier
succeeds, the response is 200 with a Bearer token, `expires_in` 3600 and a
refresh token, and the minted access-token record (TTL 3600) carries the
stored user id and client id. -/
theorem tokenEndpoint_no_challenge_skips_pkce
    (kv : KV) (req : TokenRequest) (c : String) (r : AuthCodeRecord) (ttl : Nat)
    (fa fr : String) (now : Nat)
    (hg : req.grant_type = some "authorization_code")
    (hc : req.code = some c) (hc0 : c ≠ "")
    (hv : truthy req.code_verifier = true)
    (hl : kv.auth_code c = some (r, ttl))
    (hch : r.code_challenge = none) :
    (tokenEndpoint kv req fa fr now).1 =
      { status := 200, accessToken := some fa, tokenType := some "Bearer",
        expiresIn := some 3600, refreshToken := some fr } ∧
    (tokenEndpoint kv req fa fr now).2.access_token fa =
      some (⟨r.user_id, r.client_id, r.github_code, now⟩, 3600) := by
  constructor <;>
    simp [tokenEndpoint, hg, hc, hv, hl, hch, hc0,
          KV.putAccessToken, KV.deleteAuthCode]

/-- Witness for `tokenEndpoint_no_challenge_skips_pkce` at a concrete store
holding a challenge-free code. -/
theorem tokenEndpoint_no_challenge_skips_pkce_witness :
    (tokenEndpoint
        (emptyKV.putAuthCode "codeA"
          ⟨"clientA", "https://client.example/cb", none, none, "gh", "github_user_gh", 7⟩ 600)
        ⟨some "authorization_code", some "codeA", some "whatever", some "clientA"⟩
        "atA" "rtA" 11).1 =
      { status := 200, accessToken := some "atA", tokenType := some "Bearer",
        expiresIn := some 3600, refreshToken := some "rtA" } ∧
    (tokenEndpoint
        (emptyKV.putAuthCode "codeA"
          ⟨"clientA", "https://client.example/cb", none, none, "gh", "github_user_gh", 7⟩ 600)
        ⟨some "authorization_code", some "codeA", some "whatever", some "clientA"⟩
        "atA" "rtA" 11).2.access_token "atA" =
      some (⟨"github_user_gh", "clientA", "gh", 11⟩, 3600) :=
  tokenEndpoint_no_challenge_skips_pkce _ _ "codeA"
    ⟨"clientA", "https://client.example/cb", none, none, "gh", "github_user_gh", 7⟩ 600
    "atA" "rtA" 11 rfl rfl (by decide) (by decide) (by decide) rfl

/-- C4 (amended): the token endpoint never inspects the submitted
`client_id` — its outcome (response and store) is identical for any two
submitted `client_id` values, so the client binding recorded with the code
is not enforced at exchange time. -/
theorem tokenEndpoint_ignores_submitted_client_id
    (kv : KV) (g c v cid1 cid2 : Option String) (fa fr : String) (now : Nat) :
    tokenEndpoint kv ⟨g, c, v, cid1⟩ fa fr now =
      tokenEndpoint kv ⟨g, c, v, cid2⟩ fa fr now := rfl

/-- C4 counterexample: a code stored for client `"clientA"` is successfully
exchanged by a request submitting `client_id = "clientB"` — the claim that a
mismatched client id cannot succeed is false. -/
theorem tokenEndpoint_client_id_mismatch_succeeds :
    ((tokenEndpoint
        (emptyKV.putAuthCode "code4"
          ⟨"clientA", "https://client.example/cb", none, none, "gh4", "github_user_gh4", 0⟩ 600)
        ⟨some "authorization_code", some "code4", some "anyVerifier", some "clientB"⟩
        "at4" "rt4" 5).1.status = 200) ∧
    ("clientB" : String) ≠ "clientA" := by
  constructor
  · decide
  · decide

/-- C2: the token endpoint deletes the authorization code unconditionally
upon lookup — after any request that reached the lookup (right grant type,
truthy code and verifier, code present in the store), the code is gone from
the store, and a second request with the same code value fails with 400
`invalid_grant`; nothing is assumed about the first request's PKCE outcome,
so this holds in particular when its verification failed. -/
theorem authorization_code_single_use
    (kv : KV) (req1 req2 : TokenRequest) (c : String) (e : AuthCodeRecord × Nat)
    (fa1 fr1 fa2 fr2 : String) (n1 n2 : Nat)
    (h1g : req1.grant_type = some "authorization_code")
    (h1c : req1.code = some c) (hc0 : c ≠ "")
    (h1v : truthy req1.code_verifier = true)
    (hl : kv.auth_code c = some e)
    (h2g : req2.grant_type = some "authorization_code")
    (h2c : req2.code = some c)
    (h2v : truthy req2.code_verifier = true) :
    (tokenEndpoint kv req1 fa1 fr1 n1).2.auth_code c = none ∧
    (tokenEndpoint (tokenEndpoint kv req1 fa1 fr1 n1).2 req2 fa2 fr2 n2).1 =
      { status := 400, jsonError := some "invalid_grant",
        jsonErrorDescription := some "Invalid or expired authorization code" } := by
  obtain ⟨r, ttl⟩ := e
  have hdel : (tokenEndpoint kv req1 fa1 fr1 n1).2.auth_code c = none := by
    simp [tokenEndpoint, h1g, h1c, h1v, hl, hc0]
    split <;> simp [KV.deleteAuthCode, KV.putAccessToken]
  refine ⟨hdel, ?_⟩
  generalize hK : (tokenEndpoint kv req1 fa1 fr1 n1).2 = kv1 at hdel ⊢
  simp [tokenEndpoint, h2g, h2c, h2v, hdel, hc0]

/-- Witness for `authorization_code_single_use`: the first request submits a
wrong verifier against a stored S256 challenge (so its PKCE verification
fails), yet the replay of the same code still gets `invalid_grant`. -/
theorem authorization_code_single_use_witness :
    (tokenEndpoint
        (emptyKV.putAuthCode "code2"
          ⟨"clientA", "https://client.example/cb",
           some "E9Melhoa2OwvFrEMTJguCHaoeK1t8URWbuGJSstw-cM", some "S256",
           "gh2", "github_user_gh2", 0⟩ 600)
        ⟨some "authorization_code", some "code2", some "wrong-verifier", some "clientA"⟩
        "atX" "rtX" 1).2.auth_code "code2" = none ∧
    (tokenEndpoint
        (tokenEndpoint
          (emptyKV.putAuthCode "code2"
            ⟨"clientA", "https://client.example/cb",
             some "E9Melhoa2OwvFrEMTJguCHaoeK1t8URWbuGJSstw-cM", some "S256",
             "gh2", "github_user_gh2", 0⟩ 600)
          ⟨some "authorization_code", some "code2", some "wrong-verifier", some "clientA"⟩
          "atX" "rtX" 1).2
        ⟨some "authorization_code", some "code2",
         some "dBjftJeZ4CVP-mB92K27uhbUJU1p1r_wW1gFWFOEjXk", some "clientA"⟩
        "atY" "rtY" 2).1 =
      { status := 400, jsonError := some "invalid_grant",
        jsonErrorDescription := some "Invalid or expired authorization code" } :=
  authorization_code_single_use _ _ _ "code2"
    (⟨"clientA", "https://client.example/cb",
      some "E9Melhoa2OwvFrEMTJguCHaoeK1t8URWbuGJSstw-cM", some "S256",
      "gh2", "github_user_gh2", 0⟩, 600)
    "atX" "rtX" "atY" "rtY" 1 2 rfl rfl (by decide) (by decide) (by decide)
    rfl rfl (by decide)

/-- C1 (amended): when the stored code carries a (truthy) PKCE challenge,
the exchange succeeds exactly when `base64url(SHA-256(verifier))` without
padding equals the stored challenge — the stored
`code_challenge_method` is never examined (the record `r`, and hence its
method field, is arbitrary here), and a mismatch yields 400 `invalid_grant`. -/
theorem tokenEndpoint_pkce_match_decides
    (kv : KV) (req : TokenRequest) (c v ch : String) (r : AuthCodeRecord) (ttl : Nat)
    (fa fr : String) (now : Nat)
    (hg : req.grant_type = some "authorization_code")
    (hc : req.code = some c) (hc0 : c ≠ "")
    (hv : req.code_verifier = some v) (hv0 : v ≠ "")
    (hl : kv.auth_code c = some (r, ttl))
    (hch : r.code_challenge = some ch) (hch0 : ch ≠ "") :
    ((tokenEndpoint kv req fa fr now).1.status = 200 ↔ pkceChallenge v = ch) ∧
    (pkceChallenge v ≠ ch →
      (tokenEndpoint kv req fa fr now).1 =
        { status := 400, jsonError := some "invalid_grant",
          jsonErrorDescription := some "Invalid code verifier" }) := by
  by_cases hpk : pkceChallenge v = ch
  · refine ⟨?_, fun h => absurd hpk h⟩
    simp [tokenEndpoint, hg, hc, hv, hl, hch, hc0, hv0, hch0, hpk,
          KV.putAccessToken, KV.deleteAuthCode]
  · constructor
    · simp [tokenEndpoint, hg, hc, hv, hl, hch, hc0, hv0, hch0, hpk]
    · intro _
      simp [tokenEndpoint, hg, hc, hv, hl, hch, hc0, hv0, hch0, hpk]

/-- Witness for `tokenEndpoint_pkce_match_decides` on the RFC 7636 test
vector with method `S256` stored. -/
theorem tokenEndpoint_pkce_match_decides_witness :
    ((tokenEndpoint
        (emptyKV.putAuthCode "code1"
          ⟨"clientA", "https://client.example/cb",
           some "E9Melhoa2OwvFrEMTJguCHaoeK1t8URWbuGJSstw-cM", some "S256",
           "gh1", "github_user_gh1", 0⟩ 600)
        ⟨some "authorization_code", some "code1",
         some "dBjftJeZ4CVP-mB92K27uhbUJU1p1r_wW1gFWFOEjXk", some "clientA"⟩
        "at1" "rt1" 4).1.status = 200 ↔
      pkceChallenge "dBjftJeZ4CVP-mB92K27uhbUJU1p1r_wW1gFWFOEjXk" =
        "E9Melhoa2OwvFrEMTJguCHaoeK1t8URWbuGJSstw-cM") ∧
    (pkceChallenge "dBjftJeZ4CVP-mB92K27uhbUJU1p1r_wW1gFWFOEjXk" ≠
        "E9Melhoa2OwvFrEMTJguCHaoeK1t8URWbuGJSstw-cM" →
      (tokenEndpoint
        (emptyKV.putAuthCode "code1"
          ⟨"clientA", "https://client.example/cb",
           some "E9Melhoa2OwvFrEMTJguCHaoeK1t8URWbuGJSstw-cM", some "S256",
           "gh1", "github_user_gh1", 0⟩ 600)
        ⟨some "authorization_code", some "code1",
         some "dBjftJeZ4CVP-mB92K27uhbUJU1p1r_wW1gFWFOEjXk", some "clientA"⟩
        "at1" "rt1" 4).1 =
      { status := 400, jsonError := some "invalid_grant",
        jsonErrorDescription := some "Invalid code verifier" }) :=
  tokenEndpoint_pkce_match_decides _ _ "code1"
    "dBjftJeZ4CVP-mB92K27uhbUJU1p1r_wW1gFWFOEjXk"
    "E9Melhoa2OwvFrEMTJguCHaoeK1t8URWbuGJSstw-cM"
    ⟨"clientA", "https://client.example/cb",
     some "E9Melhoa2OwvFrEMTJguCHaoeK1t8URWbuGJSstw-cM", some "S256",
     "gh1", "github_user_gh1", 0⟩ 600
    "at1" "rt1" 4 rfl rfl (by decide) rfl (by decide) (by decide) rfl (by decide)

set_option maxRecDepth 100000 in
/-- C1 counterexample: the stored method is `"plain"`, not `"S256"`, yet the
exchange succeeds (status 200) because the endpoint always applies the S256
computation and never looks at the stored method — refuting the claim that
any method other than `S256` yields `invalid_grant`. -/
theorem tokenEndpoint_non_s256_method_still_succeeds :
    (tokenEndpoint
        (emptyKV.putAuthCode "code1p"
          ⟨"clientA", "https://client.example/cb",
           some "E9Melhoa2OwvFrEMTJguCHaoeK1t8URWbuGJSstw-cM", some "plain",
           "gh1p", "github_user_gh1p", 0⟩ 600)
        ⟨some "authorization_code", some "code1p",
         some "dBjftJeZ4CVP-mB92K27uhbUJU1p1r_wW1gFWFOEjXk", some "clientA"⟩
        "at1p" "rt1p" 3).1.status = 200 ∧
    ("plain" : String) ≠ "S256" := by
  constructor
  · decide
  · decide

/-- C3: a pending authorization session is redeemable exactly once — a first
callback carrying a (truthy) provider code and a state that matches a stored
session redeems it with a 302 redirect; any replayed callback with the same
state (with any truthy code, fresh randomness and time) then fails with 400
"Invalid or expired session", and a callback whose state matches no stored
session fails with the same status and body. -/
theorem pending_session_single_use
    (kv : KV) (st : String) (sess : SessionRecord × Nat)
    (code1 fresh1 : String) (n1 : Nat)
    (hst0 : st ≠ "") (hcode1 : code1 ≠ "")
    (hl : kv.github_state st = some sess) :
    ((githubCallback kv (some code1) (some st) fresh1 n1).1.status = 302) ∧
    (∀ (code2 : Option String), truthy code2 = true → ∀ (fresh2 : String) (n2 : Nat),
      (githubCallback (githubCallback kv (some code1) (some st) fresh1 n1).2
          code2 (some st) fresh2 n2).1 =
        { status := 400, body := some "Invalid or expired session" }) ∧
    (∀ (kv2 : KV) (st2 : String) (code2 : Option String),
      truthy code2 = true → st2 ≠ "" → kv2.github_state st2 = none →
      ∀ (f : String) (n : Nat),
      (githubCallback kv2 code2 (some st2) f n).1 =
        { status := 400, body := some "Invalid or expired session" }) := by
  obtain ⟨s, ttl⟩ := sess
  refine ⟨?_, ?_, ?_⟩
  · simp [githubCallback, hst0, hcode1, hl]
  · intro code2 hcode2 fresh2 n2
    have hgone : (githubCallback kv (some code1) (some st) fresh1 n1).2.github_state st = none := by
      simp [githubCallback, hst0, hcode1, hl, KV.deleteSession, KV.putAuthCode]
    generalize hK : (githubCallback kv (some code1) (some st) fresh1 n1).2 = kv1 at hgone ⊢
    simp [githubCallback, hst0, hcode2, hgone]
  · intro kv2 st2 code2 hcode2 hst2 hnone f n
    simp [githubCallback, hst2, hcode2, hnone]

/-- Witness for `pending_session_single_use`: a concrete stored session is
redeemed once, and the replayed callback fails with the 400 error. -/
theorem pending_session_single_use_witness :
    ((githubCallback
        (emptyKV.putSession "state3"
          ⟨⟨"code", "clientC", "https://client.example/cb", none, none, some "xyz", none⟩, 0⟩ 3600)
        (some "provcode") (some "state3") "freshcode3" 1).1.status = 302) ∧
    (∀ (code2 : Option String), truthy code2 = true → ∀ (fresh2 : String) (n2 : Nat),
      (githubCallback
          (githubCallback
            (emptyKV.putSession "state3"
              ⟨⟨"code", "clientC", "https://client.example/cb", none, none, some "xyz", none⟩, 0⟩ 3600)
            (some "provcode") (some "state3") "freshcode3" 1).2
          code2 (some "state3") fresh2 n2).1 =
        { status := 400, body := some "Invalid or expired session" }) ∧
    (∀ (kv2 : KV) (st2 : String) (code2 : Option String),
      truthy code2 = true → st2 ≠ "" → kv2.github_state st2 = none →
      ∀ (f : String) (n : Nat),
      (githubCallback kv2 code2 (some st2) f n).1 =
        { status := 400, body := some "Invalid or expired session" }) :=
  pending_session_single_use _ "state3"
    (⟨⟨"code", "clientC", "https://client.example/cb", none, none, some "xyz", none⟩, 0⟩, 3600)
    "provcode" "freshcode3" 1 (by decide) (by decide) (by decide)

/-- C6: the `/authorize` fallback rejects with a 400 (the broker's
`invalid_request` rejection, body "Missing required OAuth parameters") any
request whose response type, client id or redirect URI is falsy, leaving the
store untouched; a valid request performs exactly one store write — a
pending session under the fresh state key with TTL 3600 holding the original
parameters — and 302-redirects to GitHub with the fresh session id as the
provider-facing `state`. -/
theorem authorize_fallback_contract
    (kv : KV) (q : AuthorizeQuery) (gcid origin fresh : String) (now : Nat) :
    (¬(truthy q.response_type = true ∧ truthy q.client_id = true ∧
        truthy q.redirect_uri = true) →
      authorizeFallback kv q gcid origin fresh now =
        ({ status := 400, body := some "Missing required OAuth parameters" }, kv)) ∧
    (truthy q.response_type = true → truthy q.client_id = true →
      truthy q.redirect_uri = true →
      (authorizeFallback kv q gcid origin fresh now).1 =
        { status := 302
          location := some ⟨GITHUB_AUTH_URL,
            [("client_id", gcid), ("redirect_uri", origin ++ "/github/callback"),
             ("scope", "user:email"), ("state", fresh)]⟩ } ∧
      (authorizeFallback kv q gcid origin fresh now).2.github_state fresh =
        some (⟨⟨q.response_type.getD "", q.client_id.getD "", q.redirect_uri.getD "",
               q.code_challenge, q.code_challenge_method, q.state, q.scope⟩, now⟩, 3600) ∧
      (∀ k, k ≠ fresh →
        (authorizeFallback kv q gcid origin fresh now).2.github_state k =
          kv.github_state k) ∧
      (authorizeFallback kv q gcid origin fresh now).2.auth_code = kv.auth_code ∧
      (authorizeFallback kv q gcid origin fresh now).2.access_token = kv.access_token ∧
      (authorizeFallback kv q gcid origin fresh now).2.client = kv.client) := by
  constructor
  · intro h
    have hf : truthy q.response_type = false ∨ truthy q.client_id = false ∨
        truthy q.redirect_uri = false := by
      rcases Bool.eq_false_or_eq_true (truthy q.response_type) with h1 | h1
      · rcases Bool.eq_false_or_eq_true (truthy q.client_id) with h2 | h2
        · rcases Bool.eq_false_or_eq_true (truthy q.redirect_uri) with h3 | h3
          · exact absurd ⟨h1, h2, h3⟩ h
          · exact Or.inr (Or.inr h3)
        · exact Or.inr (Or.inl h2)
      · exact Or.inl h1
    rcases hf with h1 | h1 | h1 <;> simp [authorizeFallback, h1]
  · intro h1 h2 h3
    refine ⟨?_, ?_, ?_, ?_, ?_, ?_⟩ <;>
      simp [authorizeFallback, h1, h2, h3, KV.putSession]
    intro k hk
    simp [hk]

/-- Witness for `authorize_fallback_contract`: a fully-populated valid query
produces the 302 and the single session write. -/
theorem authorize_fallback_contract_witness :
    (authorizeFallback emptyKV
        ⟨some "code", some "abc", some "https://client.example/cb",
         some "E9Melhoa2OwvFrEMTJguCHaoeK1t8URWbuGJSstw-cM", some "S256",
         some "xyz", some "mcp"⟩
        "ghClient" "https://broker.example" "sess6" 42).1 =
      { status := 302
        location := some ⟨GITHUB_AUTH_URL,
          [("client_id", "ghClient"),
           ("redirect_uri", "https://broker.example" ++ "/github/callback"),
           ("scope", "user:email"), ("state", "sess6")]⟩ } ∧
    (authorizeFallback emptyKV
        ⟨some "code", some "abc", some "https://client.example/cb",
         some "E9Melhoa2OwvFrEMTJguCHaoeK1t8URWbuGJSstw-cM", some "S256",
         some "xyz", some "mcp"⟩
        "ghClient" "https://broker.example" "sess6" 42).2.github_state "sess6" =
      some (⟨⟨"code", "abc", "https://client.example/cb",
             some "E9Melhoa2OwvFrEMTJguCHaoeK1t8URWbuGJSstw-cM", some "S256",
             some "xyz", some "mcp"⟩, 42⟩, 3600) :=
  ⟨((authorize_fallback_contract emptyKV
      ⟨some "code", some "abc", some "https://client.example/cb",
       some "E9Melhoa2OwvFrEMTJguCHaoeK1t8URWbuGJSstw-cM", some "S256",
       some "xyz", some "mcp"⟩
      "ghClient" "https://broker.example" "sess6" 42).2 (by decide) (by decide)
      (by decide)).1,
   ((authorize_fallback_contract emptyKV
      ⟨some "code", some "abc", some "https://client.example/cb",
       some "E9Melhoa2OwvFrEMTJguCHaoeK1t8URWbuGJSstw-cM", some "S256",
       some "xyz", some "mcp"⟩
      "ghClient" "https://broker.example" "sess6" 42).2 (by decide) (by decide)
      (by decide)).2.1⟩

/-- C7: redeeming a pending session mints a fresh authorization code stored
with TTL 600 (bound to the session's client id, redirect URI and PKCE
challenge, with the user id derived from the provider code) and responds 302
to the *original* redirect URI carrying exactly the `code` parameter plus
the caller's original `state` when the session stored a truthy one — and no
`state` parameter at all otherwise; the provider-facing state is not among
the parameters. -/
theorem callback_mints_code_and_redirects
    (kv : KV) (st code fresh : String) (now : Nat) (sess : SessionRecord) (ttl : Nat)
    (hst0 : st ≠ "") (hcode0 : code ≠ "")
    (hl : kv.github_state st = some (sess, ttl)) :
    (githubCallback kv (some code) (some st) fresh now).1.status = 302 ∧
    (githubCallback kv (some code) (some st) fresh now).2.auth_code fresh =
      some (⟨sess.oauth_params.client_id, sess.oauth_params.redirect_uri,
             sess.oauth_params.code_challenge, sess.oauth_params.code_challenge_method,
             code, "github_user_" ++ code.take 8, now⟩, 600) ∧
    (githubCallback kv (some code) (some st) fresh now).1.location =
      some ⟨sess.oauth_params.redirect_uri,
        ("code", fresh) ::
        (if truthy sess.oauth_params.state then
           [("state", sess.oauth_params.state.getD "")]
         else [])⟩ := by
  refine ⟨?_, ?_, ?_⟩ <;>
    simp [githubCallback, hst0, hcode0, hl, KV.deleteSession, KV.putAuthCode]

/-- Witness for `callback_mints_code_and_redirects`, with an original caller
state `"xyz"` distinct from the provider-facing state `"state7"`. -/
theorem callback_mints_code_and_redirects_witness :
    (githubCallback
        (emptyKV.putSession "state7"
          ⟨⟨"code", "clientC", "https://client.example/cb",
            some "E9Melhoa2OwvFrEMTJguCHaoeK1t8URWbuGJSstw-cM", some "S256",
            some "xyz", none⟩, 0⟩ 3600)
        (some "provcode7") (some "state7") "fresh7" 9).1.status = 302 ∧
    (githubCallback
        (emptyKV.putSession "state7"
          ⟨⟨"code", "clientC", "https://client.example/cb",
            some "E9Melhoa2OwvFrEMTJguCHaoeK1t8URWbuGJSstw-cM", some "S256",
            some "xyz", none⟩, 0⟩ 3600)
        (some "provcode7") (some "state7") "fresh7" 9).2.auth_code "fresh7" =
      some (⟨"clientC", "https://client.example/cb",
             some "E9Melhoa2OwvFrEMTJguCHaoeK1t8URWbuGJSstw-cM", some "S256",
             "provcode7", "github_user_" ++ "provcode7".take 8, 9⟩, 600) ∧
    (githubCallback
        (emptyKV.putSession "state7"
          ⟨⟨"code", "clientC", "https://client.example/cb",
            some "E9Melhoa2OwvFrEMTJguCHaoeK1t8URWbuGJSstw-cM", some "S256",
            some "xyz", none⟩, 0⟩ 3600)
        (some "provcode7") (some "state7") "fresh7" 9).1.location =
      some ⟨"https://client.example/cb",
        ("code", "fresh7") ::
        (if truthy (some "xyz") then [("state", (some "xyz").getD "")] else [])⟩ :=
  callback_mints_code_and_redirects _ "state7" "provcode7" "fresh7" 9
    ⟨⟨"code", "clientC", "https://client.example/cb",
      some "E9Melhoa2OwvFrEMTJguCHaoeK1t8URWbuGJSstw-cM", some "S256",
      some "xyz", none⟩, 0⟩ 3600 (by decide) (by decide) (by decide)

/-- C8: the `/sse` gate applies its checks in fixed order — origin guard
(403), taken only when the allow-list flag is enabled; then rate limiter
(429), taken only when the rate-limit store binding is present; then bearer
lookup, which rejects with 401 (carrying `WWW-Authenticate: Bearer`) when
the header is absent, not a Bearer header, or the token has no stored
record, and otherwise forwards the request with the record's user id and
client id attached as the context props. -/
theorem sseGate_order_and_bearer
    (kv : KV) (enable originValid hasRL rateOk : Bool) (ah : Option String) :
    ((enable && !originValid) = true →
      sseGate kv enable originValid hasRL rateOk ah = .forbidden) ∧
    ((enable && !originValid) = false → (hasRL && !rateOk) = true →
      sseGate kv enable originValid hasRL rateOk ah = .rateLimited) ∧
    ((enable && !originValid) = false → (hasRL && !rateOk) = false →
      ((ah = none → sseGate kv enable originValid hasRL rateOk ah = .unauthorized) ∧
       (∀ h, ah = some h → isBearer h = false →
         sseGate kv enable originValid hasRL rateOk ah = .unauthorized) ∧
       (∀ h, ah = some h → isBearer h = true →
         kv.access_token (bearerToken h) = none →
         sseGate kv enable originValid hasRL rateOk ah = .unauthorized) ∧
       (∀ h tok ttl, ah = some h → isBearer h = true →
         kv.access_token (bearerToken h) = some (tok, ttl) →
         sseGate kv enable originValid hasRL rateOk ah =
           .forwarded tok.user_id tok.client_id))) ∧
    GateResult.statusCode .forbidden = some 403 ∧
    GateResult.statusCode .rateLimited = some 429 ∧
    GateResult.statusCode .unauthorized = some 401 ∧
    GateResult.wwwAuthenticateBearer .unauthorized = true := by
  refine ⟨?_, ?_, ?_, rfl, rfl, rfl, rfl⟩
  · intro h1
    simp [sseGate, h1]
  · intro h1 h2
    simp [sseGate, h1, h2]
  · intro h1 h2
    refine ⟨?_, ?_, ?_, ?_⟩
    · intro hn; simp [sseGate, h1, h2, hn]
    · intro h hh hb; simp [sseGate, h1, h2, hh, hb]
    · intro h hh hb hc; simp [sseGate, h1, h2, hh, hb, hc]
    · intro h tok ttl hh hb hc; simp [sseGate, h1, h2, hh, hb, hc]

/-- Witness for `sseGate_order_and_bearer`: at concrete inputs the gate
forbids when the allow-list rejects, rate-limits next, 401s a bare request,
and forwards a stored bearer token with its props. -/
theorem sseGate_order_and_bearer_witness :
    sseGate emptyKV true false true true (some "Bearer tok8") = .forbidden ∧
    sseGate emptyKV false false true false (some "Bearer tok8") = .rateLimited ∧
    sseGate emptyKV false false false false none = .unauthorized ∧
    sseGate (emptyKV.putAccessToken "tok8" ⟨"user8", "client8", "gh8", 0⟩ 3600)
        false false false false (some "Bearer tok8") =
      .forwarded "user8" "client8" :=
  ⟨(sseGate_order_and_bearer emptyKV true false true true (some "Bearer tok8")).1
      (by decide),
   (sseGate_order_and_bearer emptyKV false false true false (some "Bearer tok8")).2.1
      (by decide) (by decide),
   ((sseGate_order_and_bearer emptyKV false false false false none).2.2.1
      (by decide) (by decide)).1 rfl,
   ((sseGate_order_and_bearer
        (emptyKV.putAccessToken "tok8" ⟨"user8", "client8", "gh8", 0⟩ 3600)
        false false false false (some "Bearer tok8")).2.2.1
      (by decide) (by decide)).2.2.2 "Bearer tok8" ⟨"user8", "client8", "gh8", 0⟩
      3600 rfl (by decide) (by decide)⟩

/-- C9 (amended): registration always returns 201, persists the metadata
under the minted client id with TTL 30 days — the stored record's
`client_id` is the minted one and `created_at` the current time — and
echoes the caller's metadata back verbatim; the response's `client_id` is
the minted id only when the body has no `client_id` key of its own (a
body-supplied `client_id` overrides the minted one in the response, because
the body is spread after it). -/
theorem register_contract
    (kv : KV) (body : JsonObj) (fresh : String) (now : Nat) :
    (registerEndpoint kv body fresh now).1.1 = 201 ∧
    (∀ k v, body k = some v → (registerEndpoint kv body fresh now).1.2 k = some v) ∧
    (body "client_id" = none →
      (registerEndpoint kv body fresh now).1.2 "client_id" = some (.str fresh)) ∧
    (∃ stored,
      (registerEndpoint kv body fresh now).2.client fresh = some (stored, 86400 * 30) ∧
      stored "client_id" = some (.str fresh) ∧
      stored "created_at" = some (.num now) ∧
      (∀ k, k ≠ "client_id" → k ≠ "created_at" → stored k = body k)) := by
  refine ⟨rfl, ?_, ?_, ?_⟩
  · intro k v hk
    simp [registerEndpoint, hk]
  · intro hk
    simp [registerEndpoint, hk]
  · refine ⟨fun k =>
      if k = "created_at" then some (.num now)
      else if k = "client_id" then some (.str fresh)
      else body k, ?_, ?_, ?_, ?_⟩
    · simp [registerEndpoint, KV.putClient]
    · rfl
    · rfl
    · intro k hk1 hk2
      simp [hk1, hk2]

/-- Witness for `register_contract` on a body without a `client_id` key. -/
theorem register_contract_witness :
    (registerEndpoint emptyKV
        (fun k => if k = "client_name" then some (.str "demo") else none)
        "minted9" 13).1.1 = 201 ∧
    (registerEndpoint emptyKV
        (fun k => if k = "client_name" then some (.str "demo") else none)
        "minted9" 13).1.2 "client_name" = some (.str "demo") ∧
    (registerEndpoint emptyKV
        (fun k => if k = "client_name" then some (.str "demo") else none)
        "minted9" 13).1.2 "client_id" = some (.str "minted9") :=
  ⟨(register_contract emptyKV
      (fun k => if k = "client_name" then some (.str "demo") else none)
      "minted9" 13).1,
   (register_contract emptyKV
      (fun k => if k = "client_name" then some (.str "demo") else none)
      "minted9" 13).2.1 "client_name" (.str "demo") (by decide),
   (register_contract emptyKV
      (fun k => if k = "client_name" then some (.str "demo") else none)
      "minted9" 13).2.2.1 (by decide)⟩

/-- C9 counterexample: a body that itself contains a `client_id` key wins in
the response — the response's `client_id` is the body's value, not the newly
minted identifier, refuting the claim as stated. -/
theorem register_body_client_id_overrides_response :
    (registerEndpoint emptyKV
        (fun k => if k = "client_id" then some (.str "attacker-chosen") else none)
        "minted-id" 0).1.2 "client_id" = some (.str "attacker-chosen") ∧
    JVal.str "attacker-chosen" ≠ JVal.str "minted-id" := by
  constructor
  · decide
  · decide

end OAuthBroker
